import Mathlib

/-!
Verification of the Lizard groundwater client (`hydropandas/io/lizard.py`).

The module fetches groundwater-monitoring time series and station metadata
from a remote REST API, normalizes them and assembles per-station records.
This file is a shallow embedding of that code: network endpoints become
explicit function parameters (oracles), pandas DataFrames become lists of
row records, dict records become structures with `Option` fields for keys
that may be absent, and Python exceptions become `Except String` results.
Timestamps are modelled as seconds of the proleptic Gregorian calendar.
-/

set_option autoImplicit false

namespace Lizard

/-! ## Calendar arithmetic and strict timestamp parsing

`get_timeseries_uuid` parses event times with
`pd.to_datetime(..., format="%Y-%m-%dT%H:%M:%SZ", errors="coerce")`.
We model the fixed-width form of that pattern: exactly
`YYYY-MM-DDTHH:MM:SSZ`, with calendar validation (month/day ranges,
leap years) as the datetime constructor performs; a failed parse is
`none` (the `NaT` produced by `errors="coerce"`). -/

def isLeap (y : Nat) : Bool :=
  (y % 4 == 0 && y % 100 != 0) || y % 400 == 0

def daysInMonth (y m : Nat) : Nat :=
  if m = 2 then (if isLeap y then 29 else 28)
  else if m = 4 ∨ m = 6 ∨ m = 9 ∨ m = 11 then 30
  else 31

def daysBeforeMonth (y m : Nat) : Nat :=
  (match m with
   | 1 => 0 | 2 => 31 | 3 => 59 | 4 => 90 | 5 => 120 | 6 => 151 | 7 => 181
   | 8 => 212 | 9 => 243 | 10 => 273 | 11 => 304 | _ => 334)
  + (if isLeap y ∧ m > 2 then 1 else 0)

structure DateTime where
  year : Nat
  month : Nat
  day : Nat
  hour : Nat
  minute : Nat
  second : Nat
deriving DecidableEq

/-- Seconds since the start of year 1 of the proleptic Gregorian calendar. -/
def toSeconds (d : DateTime) : Nat :=
  let y := d.year
  let days := 365 * (y - 1) + (y - 1) / 4 - (y - 1) / 100 + (y - 1) / 400
      + daysBeforeMonth y d.month + (d.day - 1)
  days * 86400 + d.hour * 3600 + d.minute * 60 + d.second

def digitVal (c : Char) : Option Nat :=
  if '0' ≤ c ∧ c ≤ '9' then some (c.toNat - 48) else none

def num2 (a b : Char) : Option Nat := do
  let x ← digitVal a
  let y ← digitVal b
  pure (10 * x + y)

def num4 (a b c d : Char) : Option Nat := do
  let x ← num2 a b
  let y ← num2 c d
  pure (100 * x + y)

/-- Strict parse of the pattern `%Y-%m-%dT%H:%M:%SZ` (fixed-width form),
with range validation as performed by the datetime constructor. -/
def parseDateTimeZ (s : String) : Option DateTime :=
  match s.data with
  | [y1, y2, y3, y4, '-', mo1, mo2, '-', d1, d2, 'T',
     h1, h2, ':', mi1, mi2, ':', s1, s2, 'Z'] => do
    let y ← num4 y1 y2 y3 y4
    let mo ← num2 mo1 mo2
    let d ← num2 d1 d2
    let h ← num2 h1 h2
    let mi ← num2 mi1 mi2
    let se ← num2 s1 s2
    if 1 ≤ y ∧ 1 ≤ mo ∧ mo ≤ 12 ∧ 1 ≤ d ∧ d ≤ daysInMonth y mo ∧
        h ≤ 23 ∧ mi ≤ 59 ∧ se ≤ 59 then
      some ⟨y, mo, d, h, mi, se⟩
    else none
  | _ => none

def parseTimeZ (s : String) : Option Nat :=
  (parseDateTimeZ s).map toSeconds

/-! ## Flag translation (`translate_flag`)

`timeseries["flag"].replace(translate_dic)` maps the known integer codes
to their labels and leaves every other value unchanged, so a translated
flag cell holds either the original integer or a label string. -/

def translate_dic : List (Int × String) :=
  [(0, "betrouwbaar"), (1, "betrouwbaar"), (3, "onbeslist"), (4, "onbeslist"),
   (6, "onbetrouwbaar"), (7, "onbetrouwbaar"), (99, "onongevalideerd"),
   (-99, "verwijderd")]

def translate_flag (f : Int) : Int ⊕ String :=
  match translate_dic.lookup f with
  | some s => Sum.inr s
  | none => Sum.inl f

/-! ## Data model

A measurements DataFrame row.  Frames produced by `get_timeseries_uuid`
carry exactly the columns `value`, `flag`, `comment` under the time index,
so their rows have `name = none` and `filter_nr = none`; an `Option` field
set to `none` models a column that is absent from the frame (a Python
access of it raises `KeyError`). -/

structure MRow where
  time : Nat
  value : Int
  flag : Int ⊕ String
  comment : Option String
  name : Option String
  filter_nr : Option Nat
deriving DecidableEq

/-- A time-indexed DataFrame: the index name plus the rows in frame order
(`none` is the anonymous index of a bare `pd.DataFrame()`). -/
structure SeriesDF where
  indexName : Option String
  rows : List MRow
deriving DecidableEq

/-- One raw event from `GET timeseries/{uuid}/events/`. -/
structure RawEvent where
  time : String
  value : Int
  flag : Int
  comment : Option String
deriving DecidableEq

/-- Series descriptor returned by fetching a series URL attached to a tube;
`start` is `none` when the JSON field is `null`. -/
structure SeriesInfo where
  name : String
  uuid : String
  start : Option String
deriving DecidableEq

/-- One filter (tube) entry of a groundwater station. -/
structure StationFilter where
  code : String
  top_level : Int
  filter_top_level : Int
  filter_bottom_level : Int
  timeseries : List String
deriving DecidableEq

/-- Station metadata as returned by `groundwaterstations/?code=`;
`geometry` is the (lon, lat, z) coordinate triple. -/
structure StationMeta where
  code : String
  name : String
  surface_level : Int
  geometry : Int × Int × Int
  filters : List StationFilter
deriving DecidableEq

/-- The tube-metadata dict built by `get_metadata_tube`.  Keys that the code
may leave out of the dict (`uuid_hand`, `start_hand`, `uuid_diver`,
`start_diver`, `timeseries_type`, `status`) are `Option` fields; `none`
models both an absent key and a `None` value, which the code only ever
distinguishes through `dict.pop` on the uuid keys (modelled below). -/
structure TubeMeta where
  monitoring_well : String
  ground_level : Int
  source : String
  unit : String
  metadata_available : Bool
  status : Option String
  tube_nr : Int
  name : String
  tube_top : Int
  screen_top : Int
  screen_bottom : Int
  x : Int
  y : Int
  timeseries_type : Option String
  uuid_hand : Option String
  start_hand : Option String
  uuid_diver : Option String
  start_diver : Option String
deriving DecidableEq

/-- The remote API and ambient environment, passed explicitly:
`stations code` is the first result of `groundwaterstations/?code={code}`
(`none` when the result list is empty), `seriesInfo` fetches a series
descriptor URL, `events uuid tmin tmax` is the result list of the events
endpoint, `transform` is the WGS84 → EPSG:28992 point projection and
`today` is `pd.to_datetime("today").normalize()` in seconds. -/
structure LizardApi where
  stations : String → Option StationMeta
  seriesInfo : String → SeriesInfo
  events : String → Option String → Option String → List RawEvent
  transform : Int × Int → Int × Int
  today : Nat

/-! ## String helpers used by the source's string operations -/

/-- `needle` occurs as a contiguous substring of the haystack
(Python's `x in s` on strings). -/
def isInfixL (needle : List Char) : List Char → Bool
  | [] => needle.isEmpty
  | c :: rest => List.isPrefixOf needle (c :: rest) || isInfixL needle rest

def strContainsSub (hay needle : String) : Bool :=
  isInfixL needle.data hay.data

/-- Python's `str.endswith`. -/
def strEndsWith (s suffix : String) : Bool :=
  List.isSuffixOf suffix.data s.data

/-- `code.replace("-", "")`. -/
def stripDashes (s : String) : String :=
  ⟨s.data.filter (fun c => c ≠ '-')⟩

/-- Python's `s[-3:]`: the last three characters (the whole string when it
is shorter). -/
def takeLast3 (l : List Char) : List Char :=
  l.drop (l.length - 3)

def natOfDigits (l : List Char) : Option Nat :=
  if l ≠ [] ∧ l.all (fun c => '0' ≤ c ∧ c ≤ '9') then
    some (l.foldl (fun acc c => 10 * acc + (c.toNat - 48)) 0)
  else none

/-- Python's `int(...)` on a plain decimal string (optionally signed). -/
def intOfStr (l : List Char) : Option Int :=
  match l with
  | '-' :: rest => (natOfDigits rest).map (fun n => -(n : Int))
  | _ => (natOfDigits l).map (fun n => (n : Int))

/-! ## `_prepare_API_input` and the page count of the bulk discovery phase -/

/-- `_prepare_API_input`: the loop body rebinds `urls` to a fresh
one-element list (`urls = [url_groundwater + "&page={}".format(true_page)]`)
instead of appending to it. -/
def _prepare_API_input (nr_pages : Nat) (url_groundwater : String) : List String :=
  (List.range nr_pages).foldl
    (fun _urls page => [url_groundwater ++ "&page=" ++ toString (page + 1)]) []

/-- `nr_pages = math.ceil(nr_results / page_size)` in
`get_obs_list_from_extent`. -/
def nr_pages_from_count (nr_results page_size : Nat) : Nat :=
  (nr_results + page_size - 1) / page_size

/-! ## `get_metadata_mw_from_code` and `get_metadata_tube` -/

/-- `get_metadata_mw_from_code`: first result of the station query, or
`ValueError` when the result list is empty (IndexError caught). -/
def get_metadata_mw_from_code (api : LizardApi) (code : String) :
    Except String StationMeta :=
  match api.stations code with
  | some md => .ok md
  | none => .error ("Code " ++ code ++ " is invalid")

/-- The `for series in metadata_tube["timeseries"]` loop body of
`get_metadata_tube`: classify one series descriptor by exact name. -/
def classifySeries (seriesInfo : String → SeriesInfo) (md : TubeMeta)
    (url : String) : TubeMeta :=
  let info := seriesInfo url
  if info.name = "WNS9040.hand" then
    { md with uuid_hand := some info.uuid, start_hand := info.start }
  else if info.name = "WNS9040" then
    { md with uuid_diver := some info.uuid, start_diver := info.start }
  else md

/-- The `timeseries_type` derivation at the end of `get_metadata_tube`:
neither start present → `None`; both → `"diver + hand"`; `start_hand`
absent → `"diver"`; `start_diver` absent → `"hand"`. -/
def deriveTimeseriesType (md : TubeMeta) : Option String :=
  match md.start_hand, md.start_diver with
  | none, none => none
  | some _, some _ => some "diver + hand"
  | none, some _ => some "diver"
  | some _, none => some "hand"

/-- `get_metadata_tube`: `tube_nr` defaults to 1; the `for ... break / else
raise` selects the first filter whose code ends with `str(tube_nr)`, else
raises `ValueError` naming the station; the point projection
`transform(lat, lon)` gives (x, y); series descriptors attached to the
matched tube are classified by exact name and `timeseries_type` derived. -/
def get_metadata_tube (seriesInfo : String → SeriesInfo)
    (transform : Int × Int → Int × Int) (metadata_mw : StationMeta)
    (tube_nr0 : Option Int) : Except String TubeMeta :=
  let tube_nr := tube_nr0.getD 1
  match metadata_mw.filters.find?
      (fun f => strEndsWith f.code (toString tube_nr)) with
  | none =>
      .error (metadata_mw.name ++ " doesn't have a tube number " ++
        toString tube_nr)
  | some metadata_tube =>
      let xy := transform (metadata_mw.geometry.2.1, metadata_mw.geometry.1)
      let base : TubeMeta :=
        { monitoring_well := metadata_mw.name
          ground_level := metadata_mw.surface_level
          source := "lizard", unit := "m NAP", metadata_available := true
          status := none, tube_nr := tube_nr
          name := stripDashes metadata_tube.code
          tube_top := metadata_tube.top_level
          screen_top := metadata_tube.filter_top_level
          screen_bottom := metadata_tube.filter_bottom_level
          x := xy.1, y := xy.2
          timeseries_type := none, uuid_hand := none, start_hand := none
          uuid_diver := none, start_diver := none }
      if metadata_tube.timeseries.isEmpty then .ok base
      else
        let md := metadata_tube.timeseries.foldl (classifySeries seriesInfo) base
        .ok { md with timeseries_type := deriveTimeseriesType md }

/-! ## `get_timeseries_uuid` (the series fetcher) -/

/-- The per-event normalization of `get_timeseries_uuid`: translate the
flag, retain time/value/flag/comment, parse the time strictly against
`%Y-%m-%dT%H:%M:%SZ` with `errors="coerce"`, add one hour
(`pd.DateOffset(hours=1)`), and drop the event when the parse failed
(`~timeseries_sel["time"].isnull()`). -/
def processEvent (e : RawEvent) : Option MRow :=
  (parseTimeZ e.time).map fun t =>
    { time := t + 3600, value := e.value, flag := translate_flag e.flag
      comment := e.comment, name := none, filter_nr := none }

/-- `get_timeseries_uuid`: an empty result list yields a bare
`pd.DataFrame()`; otherwise the retained events, in arrival order (the
code never sorts), indexed by time with the index renamed to
`peil_datum_tijd`.  The `code` and `tube_nr` parameters are unused by the
source body; `tmin`/`tmax` are forwarded to the events request (their
`pd.to_datetime(...).isoformat("T")` reformatting is part of the request
encoding, absorbed into the `events` oracle); `page_size` is a query
parameter of the request. -/
def get_timeseries_uuid (events : String → Option String → Option String → List RawEvent)
    (uuid : String) (_code : String) (_tube_nr : Int)
    (tmin tmax : Option String) (_page_size : Nat := 100000) : SeriesDF :=
  let time_series_events := events uuid tmin tmax
  if time_series_events.isEmpty then { indexName := none, rows := [] }
  else
    { indexName := some "peil_datum_tijd"
      rows := time_series_events.filterMap processEvent }

/-! ## `_merge_timeseries` and `_combine_timeseries` (the series combiner) -/

/-- `DataFrame.first_valid_index()`: in this model every row is valid, so
it is the first row's time. -/
def first_valid_index (df : List MRow) : Option Nat :=
  df.head?.map (fun r => r.time)

/-- `_merge_timeseries`.  Both sides empty → empty frame.  Diver side with
no valid index → the informational `print` formats
`hand_measurements.iloc[0]["name"]`, which raises `KeyError` when the hand
frame has no `name` column (and `IndexError` when it is empty), then the
hand frame is returned.  Otherwise the hand rows strictly before the
diver's first valid index are concatenated with the full diver frame. -/
def _merge_timeseries (hand_measurements diver_measurements : List MRow) :
    Except String (List MRow) :=
  if hand_measurements.isEmpty && diver_measurements.isEmpty then .ok []
  else
    match first_valid_index diver_measurements with
    | none =>
        match hand_measurements.head? with
        | none => .error "IndexError"
        | some h0 =>
            match h0.name with
            | none => .error "KeyError: name"
            | some _ => .ok hand_measurements
    | some t0 =>
        .ok (hand_measurements.filter (fun r => r.time < t0) ++
          diver_measurements)

/-- A combined hand/diver row (`value_hand`, `value_diver`, `flag_hand`,
`flag_diver` plus the constant `name` and `filter_nr` columns); a `none`
cell is a null produced by the outer alignment of `pd.concat(axis=1)`. -/
structure CombRow where
  time : Nat
  value_hand : Option Int
  value_diver : Option Int
  flag_hand : Option (Int ⊕ String)
  flag_diver : Option (Int ⊕ String)
  name : String
  filter_nr : Nat
deriving DecidableEq

def sortedInsert (t : Nat) : List Nat → List Nat
  | [] => [t]
  | x :: xs => if t ≤ x then t :: x :: xs else x :: sortedInsert t xs

/-- The sorted, duplicate-free union of two time indexes, as produced by
the outer alignment of `pd.concat(axis=1)` on unique indexes. -/
def sortedUnion (xs ys : List Nat) : List Nat :=
  ((xs ++ ys).foldr sortedInsert []).dedup

/-- Label lookup in a frame's time index (first matching row; the pandas
alignment assumes the index is duplicate-free). -/
def lookupTime (df : List MRow) (t : Nat) : Option MRow :=
  df.find? (fun r => r.time == t)

/-- The bare `pd.DataFrame()` the fetcher returns for an empty result: no
rows and no columns (anonymous index).  Only such a frame contributes no
renamed value/flag columns to the axis-1 concat; a processed frame keeps
its columns even when every row was dropped. -/
def SeriesDF.isBare (df : SeriesDF) : Bool :=
  df.indexName.isNone && df.rows.isEmpty

/-- `_combine_timeseries`: rename the value/flag columns of each side, then
`pd.concat(axis=1)` aligns both frames on the union of their time indexes
(missing side → null) — the alignment refuses a non-unique time index
(`InvalidIndexError`).  The subsequent
`.loc[:, [value_hand, value_diver, flag_hand, flag_diver]]` raises
`KeyError` when either side was a bare empty frame and so contributed no
columns to the concat.  Finally the constant `name` and `filter_nr`
columns are assigned from `hand_measurements.loc[:, "name"][0]` /
`.loc[:, "filter_nr"][0]`, which raises `KeyError` when the hand frame
lacks those columns and fails when the hand frame has no first row. -/
def _combine_timeseries (hand_measurements diver_measurements : SeriesDF) :
    Except String (List CombRow) :=
  if ¬ ((hand_measurements.rows.map (fun r => r.time)).Nodup ∧
      (diver_measurements.rows.map (fun r => r.time)).Nodup) then
    .error "InvalidIndexError: cannot reindex on an axis with duplicate labels"
  else if hand_measurements.isBare || diver_measurements.isBare then
    .error "KeyError: not in index"
  else
    match hand_measurements.rows.head? with
    | none => .error "KeyError: name"
    | some h0 =>
        match h0.name, h0.filter_nr with
        | some nm, some fn =>
            .ok ((sortedUnion (hand_measurements.rows.map (fun r => r.time))
                (diver_measurements.rows.map (fun r => r.time))).map fun t =>
              { time := t
                value_hand :=
                  (lookupTime hand_measurements.rows t).map (fun r => r.value)
                value_diver :=
                  (lookupTime diver_measurements.rows t).map (fun r => r.value)
                flag_hand :=
                  (lookupTime hand_measurements.rows t).map (fun r => r.flag)
                flag_diver :=
                  (lookupTime diver_measurements.rows t).map (fun r => r.flag)
                name := nm, filter_nr := fn })
        | _, _ => .error "KeyError: name"

/-! ## `get_timeseries_tube` -/

/-- The value returned in `measurements` by `get_timeseries_tube`: either a
plain time-indexed frame or the combined hand/diver table. -/
inductive Measurements
  | frame (df : SeriesDF)
  | combined (rows : List CombRow)
deriving DecidableEq

/-- The trailing `if/elif` chain of `get_timeseries_tube`.  `hand`/`diver`
are `none` when the corresponding local variable was never assigned (its
fetch block was skipped) and `some none` when it was assigned Python's
`None`; short-circuiting makes the guards read only assigned variables,
but when no branch assigns `measurements` the final
`return measurements` raises `NameError`. -/
def selectMeasurements (type_timeseries : String)
    (hand diver : Option (Option SeriesDF)) : Except String Measurements :=
  match type_timeseries == "hand", hand with
  | true, some (some h) => .ok (.frame h)
  | _, _ =>
    match type_timeseries == "diver", diver with
    | true, some (some d) => .ok (.frame d)
    | _, _ =>
      if type_timeseries == "merge" || type_timeseries == "combine" then
        match hand, diver with
        | some (some h), some (some d) =>
            if type_timeseries == "merge" then
              (_merge_timeseries h.rows d.rows).map fun l =>
                .frame { indexName := if l.isEmpty then none else h.indexName
                         rows := l }
            else (_combine_timeseries h d).map .combined
        | some (some h), _ => .ok (.frame h)
        | _, some (some d) => .ok (.frame d)
        | _, _ => .error "NameError: name 'measurements' is not defined"
      else .error "NameError: name 'measurements' is not defined"

/-- The hand-fetch block of `get_timeseries_tube`: when the requested type
is one of `hand`/`merge`/`combine`, fetch the hand series if `"hand"`
occurs in `timeseries_type` — `tube_metadata.pop("uuid_hand")` removes the
key and raises `KeyError` when it is absent — else set the local to
`None`; otherwise the local stays unassigned. -/
def handFetchStep (events : String → Option String → Option String → List RawEvent)
    (md : TubeMeta) (tmin tmax : Option String) (type_timeseries : String) :
    Except String (Option (Option SeriesDF) × TubeMeta) :=
  if type_timeseries == "hand" || type_timeseries == "merge" ||
      type_timeseries == "combine" then
    if strContainsSub (md.timeseries_type.getD "") "hand" then
      match md.uuid_hand with
      | some u =>
          .ok (some (some (get_timeseries_uuid events u md.name md.tube_nr
            tmin tmax)), { md with uuid_hand := none })
      | none => .error "KeyError: uuid_hand"
    else .ok (some none, md)
  else .ok (none, md)

/-- The diver-fetch block of `get_timeseries_tube`, symmetric to the hand
block for the types `diver`/`merge`/`combine`. -/
def diverFetchStep (events : String → Option String → Option String → List RawEvent)
    (md : TubeMeta) (tmin tmax : Option String) (type_timeseries : String) :
    Except String (Option (Option SeriesDF) × TubeMeta) :=
  if type_timeseries == "diver" || type_timeseries == "merge" ||
      type_timeseries == "combine" then
    if strContainsSub (md.timeseries_type.getD "") "diver" then
      match md.uuid_diver with
      | some u =>
          .ok (some (some (get_timeseries_uuid events u md.name md.tube_nr
            tmin tmax)), { md with uuid_diver := none })
      | none => .error "KeyError: uuid_diver"
    else .ok (some none, md)
  else .ok (none, md)

/-- `get_timeseries_tube`: `timeseries_type is None` short-circuits to an
empty frame; otherwise run the hand and diver fetch blocks (threading the
metadata dict, whose uuid keys they pop) and the selection chain. -/
def get_timeseries_tube (events : String → Option String → Option String → List RawEvent)
    (tube_metadata : TubeMeta) (tmin tmax : Option String)
    (type_timeseries : String) : Except String (Measurements × TubeMeta) :=
  if tube_metadata.timeseries_type = none then
    .ok (.frame { indexName := none, rows := [] }, tube_metadata)
  else
    match handFetchStep events tube_metadata tmin tmax type_timeseries with
    | .error e => .error e
    | .ok (hand_measurements, md1) =>
        match diverFetchStep events md1 tmin tmax type_timeseries with
        | .error e => .error e
        | .ok (diver_measurements, md2) =>
            (selectMeasurements type_timeseries hand_measurements
              diver_measurements).map (fun m => (m, md2))

/-! ## `check_status_obs` and `get_lizard_groundwater` -/

def Measurements.rowsEmpty : Measurements → Bool
  | .frame df => df.rows.isEmpty
  | .combined rows => rows.isEmpty

/-- `timeseries.last_valid_index()`: every row of this model has non-null
cells (in a combined row at least the constant columns), so it is the last
row's time. -/
def Measurements.lastValidTime : Measurements → Option Nat
  | .frame df => df.rows.getLast?.map (fun r => r.time)
  | .combined rows => rows.getLast?.map (fun r => r.time)

/-- `check_status_obs`: empty frame → `"no timeseries available"`;
otherwise compare today (normalized to midnight) minus the last valid
timestamp against `pd.Timedelta(days=180)` — strictly less → `"active"`,
else `"inactive"`.  The subtraction is signed (a future timestamp gives a
negative timedelta, hence `"active"`). -/
def check_status_obs (metadata : TubeMeta) (timeseries : Measurements)
    (today : Nat) : TubeMeta :=
  if timeseries.rowsEmpty then
    { metadata with status := some "no timeseries available" }
  else
    match timeseries.lastValidTime with
    | some last_measurement_date =>
        if (today : Int) - (last_measurement_date : Int) <
            180 * 86400 then
          { metadata with status := some "active" }
        else { metadata with status := some "inactive" }
    | none => metadata

/-- `get_lizard_groundwater`: resolve the station and the tube, return
only the metadata when `only_metadata` is set, otherwise fetch the
timeseries and classify the status. -/
def get_lizard_groundwater (api : LizardApi) (code : String)
    (tube_nr : Option Int) (tmin tmax : Option String)
    (type_timeseries : String) (only_metadata : Bool) :
    Except String (Measurements × TubeMeta) :=
  (get_metadata_mw_from_code api code).bind fun groundwaterstation_metadata =>
  (get_metadata_tube api.seriesInfo api.transform groundwaterstation_metadata
      tube_nr).bind fun tube_metadata =>
  if only_metadata then
    .ok (.frame { indexName := none, rows := [] }, tube_metadata)
  else
    (get_timeseries_tube api.events tube_metadata tmin tmax
        type_timeseries).bind fun mm =>
      .ok (mm.1, check_status_obs mm.2 mm.1 api.today)

/-! ## `get_obs_list_from_codes` -/

/-- The `tube_nr` argument of `get_obs_list_from_codes`: the string
`"all"` or an integer.  Inside the loop the same Python variable is
rebound to the integers extracted from filter codes; `int == "all"` is
simply `False`. -/
inductive TubeNrArg
  | all
  | nr (n : Int)
deriving DecidableEq

/-- `get_obs_list_from_codes`.  `ObsClass.from_lizard` is external, so an
observation is represented by the `(code, tube_nr)` argument pair passed
to it.  The loop state carries the `tube_nr` variable because the
`tube_nr == "all"` branch rebinds it (`tube_nr = int(metadata_tube["code"][-3:])`)
for every filter of the station, and that binding persists into later
iterations over `codes`. -/
def get_obs_list_from_codes (api : LizardApi) (codes : List String)
    (tube_nr : TubeNrArg) : Except String (List (String × Int)) :=
  (codes.foldlM (fun (st : TubeNrArg × List (String × Int)) code =>
      match st.1 with
      | .all =>
          (get_metadata_mw_from_code api code).bind fun md =>
            md.filters.foldlM
              (fun (st2 : TubeNrArg × List (String × Int))
                  (metadata_tube : StationFilter) =>
                match intOfStr (takeLast3 metadata_tube.code.data) with
                | some tn =>
                    (.ok (TubeNrArg.nr tn, st2.2 ++ [(code, tn)]) :
                      Except String (TubeNrArg × List (String × Int)))
                | none =>
                    .error ("invalid literal for int(): " ++ metadata_tube.code))
              st
      | .nr tn =>
          (.ok (st.1, st.2 ++ [(code, tn)]) :
            Except String (TubeNrArg × List (String × Int))))
    (tube_nr, [])).map
    (fun (st : TubeNrArg × List (String × Int)) => st.2)

/-! ## Derived observables and concrete fixtures used by the theorems -/

/-- The frame's rows are ascending in the time index. -/
def sortedByTime : List MRow → Bool
  | a :: b :: rest => decide (a.time ≤ b.time) && sortedByTime (b :: rest)
  | _ => true

def evJan : RawEvent := { time := "2020-01-01T00:00:00Z", value := 5, flag := 0, comment := none }

def evJan2 : RawEvent := { time := "2020-01-02T00:00:00Z", value := 1, flag := 0, comment := none }

def evFeb : RawEvent := { time := "2020-02-01T00:00:00Z", value := 6, flag := 0, comment := none }

/-- An events endpoint that has data only for the series uuid `uh`. -/
def fetchHandOnly : String → Option String → Option String → List RawEvent :=
  fun uuid _tmin _tmax => if uuid = "uh" then [evJan] else []

/-- An events endpoint with hand data under `u1` and diver data under `u2`. -/
def fetchBoth : String → Option String → Option String → List RawEvent :=
  fun uuid _tmin _tmax => if uuid = "u1" then [evJan] else [evFeb]

def stationA : StationMeta :=
  { code := "A", name := "A", surface_level := 0, geometry := (0, 0, 0)
    filters := [{ code := "A-001", top_level := 0, filter_top_level := 0
                  filter_bottom_level := 0, timeseries := [] },
                { code := "A-002", top_level := 0, filter_top_level := 0
                  filter_bottom_level := 0, timeseries := [] }] }

def stationB : StationMeta :=
  { code := "B", name := "B", surface_level := 0, geometry := (0, 0, 0)
    filters := [{ code := "B-001", top_level := 0, filter_top_level := 0
                  filter_bottom_level := 0, timeseries := [] },
                { code := "B-002", top_level := 0, filter_top_level := 0
                  filter_bottom_level := 0, timeseries := [] }] }

def apiAB : LizardApi :=
  { stations := fun c =>
      if c = "A" then some stationA else if c = "B" then some stationB else none
    seriesInfo := fun _ => { name := "", uuid := "", start := none }
    events := fun _ _ _ => []
    transform := fun p => p
    today := 0 }

/-- Tube metadata recording only a hand series. -/
def mdHandOnly : TubeMeta :=
  { monitoring_well := "W", ground_level := 0, source := "lizard"
    unit := "m NAP", metadata_available := true, status := none, tube_nr := 1
    name := "N", tube_top := 0, screen_top := 0, screen_bottom := 0
    x := 0, y := 0, timeseries_type := some "hand", uuid_hand := some "uh"
    start_hand := some "2020-01-01", uuid_diver := none, start_diver := none }

/-- Tube metadata recording only a diver series. -/
def mdDiverOnly : TubeMeta :=
  { monitoring_well := "W", ground_level := 0, source := "lizard"
    unit := "m NAP", metadata_available := true, status := none, tube_nr := 1
    name := "N", tube_top := 0, screen_top := 0, screen_bottom := 0
    x := 0, y := 0, timeseries_type := some "diver", uuid_hand := none
    start_hand := none, uuid_diver := some "u2", start_diver := some "2020-01-01" }

/-- Tube metadata recording both series. -/
def mdBothW : TubeMeta :=
  { monitoring_well := "W", ground_level := 0, source := "lizard"
    unit := "m NAP", metadata_available := true, status := none, tube_nr := 1
    name := "N", tube_top := 0, screen_top := 0, screen_bottom := 0
    x := 0, y := 0, timeseries_type := some "diver + hand"
    uuid_hand := some "u1", start_hand := some "2020-01-01"
    uuid_diver := some "u2", start_diver := some "2020-01-01" }

/-- A hand frame carrying the `name`/`filter_nr` columns, one point at t=100. -/
def handW : List MRow :=
  [{ time := 100, value := 5, flag := Sum.inl 0, comment := none
     name := some "W", filter_nr := some 1 }]

/-- A diver frame with one point at t=200. -/
def diverW : List MRow :=
  [{ time := 200, value := 6, flag := Sum.inl 1, comment := none
     name := none, filter_nr := none }]

def rowAt (t : Nat) : MRow :=
  { time := t, value := 5, flag := Sum.inl 0, comment := none
    name := none, filter_nr := none }

/-- A frame whose last point is 179 days before day 200. -/
def ts179 : Measurements :=
  .frame { indexName := some "peil_datum_tijd", rows := [rowAt (21 * 86400)] }

/-- A frame whose last point is 181 days before day 200. -/
def ts181 : Measurements :=
  .frame { indexName := some "peil_datum_tijd", rows := [rowAt (19 * 86400)] }

def tsEmptyM : Measurements := .frame { indexName := none, rows := [] }

/-- The (measurements, metadata) pair actually returned by
`get_timeseries_tube` for the two-series tube under the merge strategy. -/
def tubeResultBoth : Measurements × TubeMeta :=
  match get_timeseries_tube fetchBoth mdBothW none none "merge" with
  | .ok p => p
  | .error _ => (.frame { indexName := none, rows := [] }, mdBothW)

/-- The (measurements, metadata) pair returned by `get_lizard_groundwater`
for station `A`, tube 1, with `only_metadata` set. -/
def lizResultA : Measurements × TubeMeta :=
  match get_lizard_groundwater apiAB "A" (some 1) none none "merge" true with
  | .ok p => p
  | .error _ => (.frame { indexName := none, rows := [] }, mdBothW)

/-! ## Helper lemmas -/

theorem mem_sortedInsert (a t : Nat) (l : List Nat) :
    a ∈ sortedInsert t l ↔ a = t ∨ a ∈ l := by
  induction l with
  | nil => simp [sortedInsert]
  | cons x xs ih =>
      simp only [sortedInsert]
      split
      · simp
      · simp only [List.mem_cons, ih]
        tauto

theorem mem_foldr_sortedInsert (a : Nat) (l init : List Nat) :
    a ∈ l.foldr sortedInsert init ↔ a ∈ l ∨ a ∈ init := by
  induction l with
  | nil => simp
  | cons x xs ih =>
      simp only [List.foldr_cons, mem_sortedInsert, ih, List.mem_cons]
      tauto

theorem mem_sortedUnion (a : Nat) (xs ys : List Nat) :
    a ∈ sortedUnion xs ys ↔ a ∈ xs ∨ a ∈ ys := by
  simp [sortedUnion, List.mem_dedup, mem_foldr_sortedInsert]

theorem length_filterMap_eq_length_filter {α β : Type} (f : α → Option β) :
    ∀ l : List α,
      (l.filterMap f).length = (l.filter (fun a => (f a).isSome)).length := by
  intro l
  induction l with
  | nil => rfl
  | cons x xs ih =>
      cases h : f x with
      | none => simp [List.filterMap_cons, List.filter_cons, h, ih]
      | some b => simp [List.filterMap_cons, List.filter_cons, h, ih]

theorem sortedByTime_eq_true_iff :
    ∀ l : List MRow,
      sortedByTime l = true ↔ l.Chain' (fun a b => a.time ≤ b.time) := by
  intro l
  induction l with
  | nil => simp [sortedByTime]
  | cons a l ih =>
      cases l with
      | nil => simp [sortedByTime]
      | cons b rest =>
          simp only [sortedByTime, Bool.and_eq_true, decide_eq_true_eq,
            List.chain'_cons, ih]

/-! ## C1: page-URL builder of the bulk extent discovery phase -/

/-- C1: the claim states that the page-URL builder produces one URL per
page, pages 1..N, and that count=250 with pageSize=100 yields exactly 3
page requests.  The code computes 3 pages but `_prepare_API_input`
rebinds `urls` instead of appending, so it returns the single URL of the
last page: the claim describes the intended behaviour and the code is a
slip (its own docstring promises the list of pages). -/
theorem claim_C1_page_urls_last_only :
    nr_pages_from_count 250 100 = 3 ∧
    _prepare_API_input 3 "BASE" = ["BASE&page=3"] ∧
    (_prepare_API_input 3 "BASE").length = 1 := by
  refine ⟨rfl, rfl, rfl⟩

/-! ## C2: `tube_nr="all"` fan-out over a batch of station codes -/

/-- C2: the claim states that with tube selection `"all"` every station in
the batch is fanned out over all its tubes.  In the code the loop variable
`tube_nr` is rebound to the last extracted tube number while processing the
first station, so the `tube_nr == "all"` test fails for every later
station: for stations `A` and `B` with tubes 1 and 2 each, the fetched
pairs are (A,1),(A,2),(B,2) — (B,1) is never fetched. -/
theorem claim_C2_all_clobbered_after_first_station :
    get_obs_list_from_codes apiAB ["A", "B"] TubeNrArg.all =
      .ok [("A", 1), ("A", 2), ("B", 2)] ∧
    ("B", (1 : Int)) ∉ [("A", (1 : Int)), ("A", 2), ("B", 2)] := by
  exact ⟨rfl, by decide⟩

/-! ## C3: merging hand and diver series -/

/-- C3: the claim states that when exactly one side is empty the other
side is returned unchanged.  When the empty side is the diver, the code's
informational print formats `hand_measurements.iloc[0]["name"]`, but the
frames built by `get_timeseries_uuid` carry only the value/flag/comment
columns, so the access raises `KeyError` instead of returning the hand
series: evaluated on a hand frame actually produced by the fetcher and an
empty diver frame, `_merge_timeseries` fails. -/
theorem claim_C3_merge_keyerror_on_empty_diver :
    _merge_timeseries
        (get_timeseries_uuid fetchHandOnly "uh" "c" 1 none none).rows
        (get_timeseries_uuid fetchHandOnly "ud" "c" 1 none none).rows =
      .error "KeyError: name" ∧
    (get_timeseries_uuid fetchHandOnly "uh" "c" 1 none none).rows ≠ [] ∧
    (get_timeseries_uuid fetchHandOnly "ud" "c" 1 none none).rows = [] := by
  refine ⟨rfl, by decide, rfl⟩

/-! ## C4: combining hand and diver series -/

/-- C4: the claim states that for every non-empty hand series and ANY
diver series, combine returns the aligned table, failing only when the
hand series is empty.  When the diver side is the bare empty frame the
fetcher returns for an empty events result (a reachable input: a time
window with no diver events), the axis-1 concat receives no value_diver or
flag_diver columns from it and the source's column selection raises
`KeyError` — combine fails on an input the claim covers.  The adjacent
conjuncts evaluate the same call with diver frames that do carry their
columns: an empty-but-columned diver yields the hand row with null diver
cells, and the claim's two-point example yields the claimed two rows, each
with one side null. -/
theorem claim_C4_combine_keyerror_on_bare_diver :
    _combine_timeseries { indexName := some "peil_datum_tijd", rows := handW }
        { indexName := none, rows := [] } =
      .error "KeyError: not in index" ∧
    (∃ rows, _combine_timeseries
        { indexName := some "peil_datum_tijd", rows := handW }
        { indexName := some "peil_datum_tijd", rows := [] } = .ok rows ∧
      rows.map (fun r => r.time) = [100] ∧
      rows.map (fun r => r.value_diver) = [none]) ∧
    (∃ rows, _combine_timeseries
        { indexName := some "peil_datum_tijd", rows := handW }
        { indexName := some "peil_datum_tijd", rows := diverW } = .ok rows ∧
      rows.map (fun r => r.time) = [100, 200] ∧
      rows.map (fun r => (r.value_hand, r.value_diver)) =
        [(some 5, none), (none, some 6)] ∧
      rows.map (fun r => (r.name, r.filter_nr)) = [("W", 1), ("W", 1)]) := by
  refine ⟨rfl, ⟨_, rfl, rfl, rfl⟩, ⟨_, rfl, rfl, rfl, rfl⟩⟩

/-! ## C5: ordering of the fetched series -/

/-- C5 counterexample: the claim states the fetched series is sorted
ascending by time regardless of arrival order, but `get_timeseries_uuid`
never sorts: events arriving as [Jan 2, Jan 1] produce a frame whose rows
are in arrival order, not ascending. -/
theorem claim_C5_counterexample_unsorted :
    [evJan2, evJan] ≠ [] ∧
    sortedByTime
      (get_timeseries_uuid (fun _ _ _ => [evJan2, evJan]) "u" "c" 1
        none none).rows = false := by
  exact ⟨by decide, rfl⟩

/-- C5 amended: for every non-empty response the returned frame carries
the fixed index name `peil_datum_tijd` and holds exactly the retained
events in arrival order (their parsed times shifted by one hour, in the
order the API sent them); it is ascending only when the retained
timestamps already arrive ascending. -/
theorem claim_C5_amended_arrival_order :
    ∀ (events : String → Option String → Option String → List RawEvent)
      (uuid code : String) (tube_nr : Int) (tmin tmax : Option String),
      events uuid tmin tmax ≠ [] →
      (get_timeseries_uuid events uuid code tube_nr tmin tmax).indexName =
        some "peil_datum_tijd" ∧
      (get_timeseries_uuid events uuid code tube_nr tmin tmax).rows.map
          (fun r => r.time) =
        ((events uuid tmin tmax).filterMap (fun e => parseTimeZ e.time)).map
          (fun t => t + 3600) ∧
      ((((events uuid tmin tmax).filterMap (fun e => parseTimeZ e.time)).map
          (fun t => t + 3600)).Chain' (fun a b => a ≤ b) →
        sortedByTime
          (get_timeseries_uuid events uuid code tube_nr tmin tmax).rows =
          true) := by
  intro events uuid code tube_nr tmin tmax hne
  have hemp : (events uuid tmin tmax).isEmpty = false := by
    simpa [List.isEmpty_iff] using hne
  have hrows : (get_timeseries_uuid events uuid code tube_nr tmin tmax).rows =
      (events uuid tmin tmax).filterMap processEvent := by
    simp [get_timeseries_uuid, hemp]
  have hname : (get_timeseries_uuid events uuid code tube_nr tmin tmax).indexName =
      some "peil_datum_tijd" := by
    simp [get_timeseries_uuid, hemp]
  have hmap : (get_timeseries_uuid events uuid code tube_nr tmin tmax).rows.map
      (fun r => r.time) =
      ((events uuid tmin tmax).filterMap (fun e => parseTimeZ e.time)).map
        (fun t => t + 3600) := by
    rw [hrows, List.map_filterMap, List.map_filterMap]
    simp [processEvent, Option.map_map, Function.comp_def]
  refine ⟨hname, hmap, fun hchain => ?_⟩
  rw [sortedByTime_eq_true_iff]
  rw [← hmap] at hchain
  exact (List.chain'_map (fun r : MRow => r.time)).mp hchain

/-- C5 amended witness: a single-event response yields the fixed index
name. -/
theorem claim_C5_amended_arrival_order_witness :
    (get_timeseries_uuid (fun _ _ _ => [evJan]) "u" "c" 1 none none).indexName =
      some "peil_datum_tijd" :=
  (claim_C5_amended_arrival_order (fun _ _ _ => [evJan]) "u" "c" 1 none none
    (by decide)).1

/-! ## C7: normalization of the events response -/

/-- C7: an empty events result yields an empty frame (not an error); for a
non-empty result each event's time is parsed strictly against
`%Y-%m-%dT%H:%M:%SZ`, events with unparseable times are dropped (the
retained row count equals the count of parseable events), every retained
timestamp is shifted forward by exactly one hour, and the raw timestamp
`2020-01-01T00:00:00Z` appears as the local time 2020-01-01T01:00:00. -/
theorem claim_C7_events_parse_shift_drop :
    ∀ (events : String → Option String → Option String → List RawEvent)
      (uuid code : String) (tube_nr : Int) (tmin tmax : Option String),
      (events uuid tmin tmax = [] →
        get_timeseries_uuid events uuid code tube_nr tmin tmax =
          { indexName := none, rows := [] }) ∧
      (get_timeseries_uuid events uuid code tube_nr tmin tmax).rows.length =
        ((events uuid tmin tmax).filter
          (fun e => (parseTimeZ e.time).isSome)).length ∧
      (get_timeseries_uuid events uuid code tube_nr tmin tmax).rows.map
          (fun r => r.time) =
        ((events uuid tmin tmax).filterMap (fun e => parseTimeZ e.time)).map
          (fun t => t + 3600) ∧
      parseTimeZ "2020-01-01T00:00:00Z" =
        some (toSeconds { year := 2020, month := 1, day := 1, hour := 0
                          minute := 0, second := 0 }) ∧
      toSeconds { year := 2020, month := 1, day := 1, hour := 0, minute := 0
                  second := 0 } + 3600 =
        toSeconds { year := 2020, month := 1, day := 1, hour := 1, minute := 0
                    second := 0 } := by
  intro events uuid code tube_nr tmin tmax
  refine ⟨fun hemp => by simp [get_timeseries_uuid, hemp], ?_, ?_, rfl, rfl⟩
  · cases hemp : (events uuid tmin tmax).isEmpty with
    | true =>
        rw [List.isEmpty_iff] at hemp
        simp [get_timeseries_uuid, hemp]
    | false =>
        have hrows : (get_timeseries_uuid events uuid code tube_nr
            tmin tmax).rows = (events uuid tmin tmax).filterMap processEvent := by
          simp [get_timeseries_uuid, hemp]
        rw [hrows, length_filterMap_eq_length_filter]
        congr 1
        apply List.filter_congr
        intro e _
        simp [processEvent]
  · cases hemp : (events uuid tmin tmax).isEmpty with
    | true =>
        rw [List.isEmpty_iff] at hemp
        simp [get_timeseries_uuid, hemp]
    | false =>
        have hrows : (get_timeseries_uuid events uuid code tube_nr
            tmin tmax).rows = (events uuid tmin tmax).filterMap processEvent := by
          simp [get_timeseries_uuid, hemp]
        rw [hrows, List.map_filterMap, List.map_filterMap]
        simp [processEvent, Option.map_map, Function.comp_def]

/-- C7 witness: an empty response yields the empty frame, and a one-event
response with an unparseable time yields a frame with zero retained
rows. -/
theorem claim_C7_events_parse_shift_drop_witness :
    get_timeseries_uuid (fun _ _ _ => []) "u" "c" 1 none none =
      { indexName := none, rows := [] } ∧
    (get_timeseries_uuid
        (fun _ _ _ => [{ time := "bogus", value := 0, flag := 0
                         comment := none }])
        "u" "c" 1 none none).rows.length =
      ([({ time := "bogus", value := 0, flag := 0, comment := none } :
          RawEvent)].filter (fun e => (parseTimeZ e.time).isSome)).length := by
  constructor
  · exact (claim_C7_events_parse_shift_drop (fun _ _ _ => []) "u" "c" 1
      none none).1 rfl
  · exact (claim_C7_events_parse_shift_drop
      (fun _ _ _ => [{ time := "bogus", value := 0, flag := 0
                       comment := none }]) "u" "c" 1 none none).2.1

/-! ## C6: tube-level series selection -/

/-- C6 counterexample: the claim states that on a tube recording only a
hand series every strategy returns that series (or, for a mismatched
single-side strategy, nothing).  Requesting `"diver"` on a hand-only tube
leaves the local variable `measurements` unassigned — neither fetch block
sets a frame and no branch of the selection chain fires — so the final
`return measurements` raises `NameError` instead of returning the series
or nothing. -/
theorem claim_C6_counterexample_mismatched_strategy :
    get_timeseries_tube fetchHandOnly mdHandOnly none none "diver" =
      .error "NameError: name 'measurements' is not defined" := by
  rfl

/-- C6 amended: on a tube recording only a hand (resp. diver) series, the
strategies naming that side and the `merge`/`combine` strategies return
exactly that series (popping its uuid key); the mismatched single-side
strategy (`diver` on a hand-only tube, `hand` on a diver-only tube) raises
`NameError` instead of returning the series or nothing. -/
theorem claim_C6_amended_single_side_selection :
    ∀ (events : String → Option String → Option String → List RawEvent)
      (md : TubeMeta) (u : String) (tmin tmax : Option String),
      (md.timeseries_type = some "hand" → md.uuid_hand = some u →
        (∀ s, s = "hand" ∨ s = "merge" ∨ s = "combine" →
          get_timeseries_tube events md tmin tmax s =
            .ok (.frame (get_timeseries_uuid events u md.name md.tube_nr
                tmin tmax), { md with uuid_hand := none })) ∧
        get_timeseries_tube events md tmin tmax "diver" =
          .error "NameError: name 'measurements' is not defined") ∧
      (md.timeseries_type = some "diver" → md.uuid_diver = some u →
        (∀ s, s = "diver" ∨ s = "merge" ∨ s = "combine" →
          get_timeseries_tube events md tmin tmax s =
            .ok (.frame (get_timeseries_uuid events u md.name md.tube_nr
                tmin tmax), { md with uuid_diver := none })) ∧
        get_timeseries_tube events md tmin tmax "hand" =
          .error "NameError: name 'measurements' is not defined") := by
  intro events md u tmin tmax
  obtain ⟨mw, gl, src, un, ma, st, tn, nm, tt, sct, scb, x, y, tst, uh, sh, ud, sd⟩ := md
  constructor
  · intro htype huuid
    simp only [TubeMeta.timeseries_type] at htype
    simp only [TubeMeta.uuid_hand] at huuid
    subst htype huuid
    constructor
    · intro s hs
      rcases hs with rfl | rfl | rfl
      · rfl
      · rfl
      · rfl
    · rfl
  · intro htype huuid
    simp only [TubeMeta.timeseries_type] at htype
    simp only [TubeMeta.uuid_diver] at huuid
    subst htype huuid
    constructor
    · intro s hs
      rcases hs with rfl | rfl | rfl
      · rfl
      · rfl
      · rfl
    · rfl

/-- C6 amended witness: on the concrete hand-only tube `mdHandOnly` the
merge strategy returns the fetched hand series with `uuid_hand` popped. -/
theorem claim_C6_amended_single_side_selection_witness :
    get_timeseries_tube fetchHandOnly mdHandOnly none none "merge" =
      .ok (.frame (get_timeseries_uuid fetchHandOnly "uh" mdHandOnly.name
          mdHandOnly.tube_nr none none),
        { mdHandOnly with uuid_hand := none }) :=
  ((claim_C6_amended_single_side_selection fetchHandOnly mdHandOnly "uh"
      none none).1 rfl rfl).1 "merge" (Or.inr (Or.inl rfl))

/-! ## C8: status classification -/

theorem rowsEmpty_false_lastValidTime (ts : Measurements) :
    ts.rowsEmpty = false → ∃ last, ts.lastValidTime = some last := by
  intro h
  cases ts with
  | frame df =>
      simp only [Measurements.rowsEmpty, List.isEmpty_eq_false] at h
      simp only [Measurements.lastValidTime]
      obtain ⟨r, hr⟩ := Option.isSome_iff_exists.mp
        (List.getLast?_isSome.mpr h)
      exact ⟨r.time, by rw [hr]; rfl⟩
  | combined rows =>
      simp only [Measurements.rowsEmpty, List.isEmpty_eq_false] at h
      simp only [Measurements.lastValidTime]
      obtain ⟨r, hr⟩ := Option.isSome_iff_exists.mp
        (List.getLast?_isSome.mpr h)
      exact ⟨r.time, by rw [hr]; rfl⟩

/-- C8: the classifier assigns "no timeseries available" exactly when the
series is empty; otherwise it assigns "active" exactly when today
(normalized to midnight) minus the series' last valid timestamp is
strictly below 180 days, and "inactive" otherwise. -/
theorem claim_C8_status_classification :
    ∀ (md : TubeMeta) (ts : Measurements) (today : Nat),
      ((check_status_obs md ts today).status =
          some "no timeseries available" ↔ ts.rowsEmpty = true) ∧
      (∀ last, ts.lastValidTime = some last → ts.rowsEmpty = false →
        (((check_status_obs md ts today).status = some "active") ↔
          (today : Int) - (last : Int) < 180 * 86400) ∧
        (((check_status_obs md ts today).status = some "inactive") ↔
          ¬((today : Int) - (last : Int) < 180 * 86400))) := by
  intro md ts today
  constructor
  · constructor
    · intro hst
      by_contra hne
      have hfalse : ts.rowsEmpty = false := by
        cases h : ts.rowsEmpty
        · rfl
        · exact absurd h hne
      obtain ⟨last, hlast⟩ := rowsEmpty_false_lastValidTime ts hfalse
      have hcs : check_status_obs md ts today =
          if (today : Int) - (last : Int) < 180 * 86400 then
            { md with status := some "active" }
          else { md with status := some "inactive" } := by
        rw [check_status_obs, if_neg (by simp [hfalse]), hlast]
      rw [hcs] at hst
      split at hst <;> simp at hst
    · intro hemp
      rw [check_status_obs, if_pos (by simp [hemp])]
  · intro last hlast hfalse
    have hcs : check_status_obs md ts today =
        if (today : Int) - (last : Int) < 180 * 86400 then
          { md with status := some "active" }
        else { md with status := some "inactive" } := by
      rw [check_status_obs, if_neg (by simp [hfalse]), hlast]
    rw [hcs]
    constructor
    · constructor
      · intro hst
        by_contra hge
        rw [if_neg hge] at hst
        simp at hst
      · intro hlt
        rw [if_pos hlt]
    · constructor
      · intro hst
        intro hlt
        rw [if_pos hlt] at hst
        simp at hst
      · intro hge
        rw [if_neg hge]

/-- C8 witness: with today = day 200, a series whose last point is exactly
179 days old classifies "active", one exactly 181 days old classifies
"inactive", and an empty series classifies "no timeseries available". -/
theorem claim_C8_status_classification_witness :
    (check_status_obs mdHandOnly ts179 (200 * 86400)).status =
      some "active" ∧
    (check_status_obs mdHandOnly ts181 (200 * 86400)).status =
      some "inactive" ∧
    (check_status_obs mdHandOnly tsEmptyM (200 * 86400)).status =
      some "no timeseries available" := by
  refine ⟨?_, ?_, ?_⟩
  · exact (((claim_C8_status_classification mdHandOnly ts179
      (200 * 86400)).2 (21 * 86400) rfl rfl).1).mpr (by decide)
  · exact (((claim_C8_status_classification mdHandOnly ts181
      (200 * 86400)).2 (19 * 86400) rfl rfl).2).mpr (by decide)
  · exact ((claim_C8_status_classification mdHandOnly tsEmptyM
      (200 * 86400)).1).mpr rfl

/-! ## C9: tube resolution -/

theorem classifySeries_foldl_preserves (si : String → SeriesInfo)
    (urls : List String) :
    ∀ md : TubeMeta,
      (urls.foldl (classifySeries si) md).name = md.name ∧
      (urls.foldl (classifySeries si) md).tube_nr = md.tube_nr ∧
      (urls.foldl (classifySeries si) md).monitoring_well =
        md.monitoring_well := by
  induction urls with
  | nil => intro md; exact ⟨rfl, rfl, rfl⟩
  | cons url rest ih =>
      intro md
      have hstep : (classifySeries si md url).name = md.name ∧
          (classifySeries si md url).tube_nr = md.tube_nr ∧
          (classifySeries si md url).monitoring_well = md.monitoring_well := by
        rw [classifySeries]
        split
        · exact ⟨rfl, rfl, rfl⟩
        · split
          · exact ⟨rfl, rfl, rfl⟩
          · exact ⟨rfl, rfl, rfl⟩
      obtain ⟨h1, h2, h3⟩ := ih (classifySeries si md url)
      rw [List.foldl_cons]
      rw [hstep.1] at h1
      rw [hstep.2.1] at h2
      rw [hstep.2.2] at h3
      exact ⟨h1, h2, h3⟩

/-- C9: tube resolution defaults the tube number to 1 when unspecified,
selects the first filter whose code ends with the string form of the tube
number (the resolved metadata carries that filter's dash-stripped code as
its name and the requested tube number), and raises an error naming the
station when no filter matches. -/
theorem claim_C9_tube_resolution :
    ∀ (si : String → SeriesInfo) (tr : Int × Int → Int × Int)
      (mw : StationMeta) (tn : Int),
      (get_metadata_tube si tr mw none = get_metadata_tube si tr mw (some 1)) ∧
      (∀ f, mw.filters.find?
          (fun g => strEndsWith g.code (toString tn)) = some f →
        ∃ md, get_metadata_tube si tr mw (some tn) = .ok md ∧
          md.name = stripDashes f.code ∧ md.tube_nr = tn ∧
          md.monitoring_well = mw.name) ∧
      (mw.filters.find?
          (fun g => strEndsWith g.code (toString tn)) = none →
        get_metadata_tube si tr mw (some tn) =
          .error (mw.name ++ " doesn't have a tube number " ++ toString tn)) := by
  intro si tr mw tn
  refine ⟨rfl, ?_, ?_⟩
  · intro f hfind
    rw [get_metadata_tube]
    simp only [Option.getD_some, hfind]
    split
    · exact ⟨_, rfl, rfl, rfl, rfl⟩
    · refine ⟨_, rfl, ?_, ?_, ?_⟩
      · exact (classifySeries_foldl_preserves si f.timeseries _).1
      · exact (classifySeries_foldl_preserves si f.timeseries _).2.1
      · exact (classifySeries_foldl_preserves si f.timeseries _).2.2
  · intro hfind
    rw [get_metadata_tube]
    simp only [Option.getD_some, hfind]

/-- C9 witness: on station `A` with filters coded A-001 and A-002,
tube number 2 resolves to the filter ending in 002 (name "A002"), and tube
number 9 raises an error naming the station. -/
theorem claim_C9_tube_resolution_witness :
    (∃ md, get_metadata_tube apiAB.seriesInfo apiAB.transform stationA
        (some 2) = .ok md ∧ md.name = "A002") ∧
    get_metadata_tube apiAB.seriesInfo apiAB.transform stationA (some 9) =
      .error "A doesn't have a tube number 9" := by
  constructor
  · obtain ⟨md, hok, hname, -, -⟩ :=
      (claim_C9_tube_resolution apiAB.seriesInfo apiAB.transform stationA
        2).2.1 { code := "A-002", top_level := 0, filter_top_level := 0
                 filter_bottom_level := 0, timeseries := [] } rfl
    exact ⟨md, hok, by rw [hname]; rfl⟩
  · exact (claim_C9_tube_resolution apiAB.seriesInfo apiAB.transform stationA
      9).2.2 rfl

/-! ## C10: uuid keys popped from the metadata record -/

theorem handFetchStep_uuid
    (events : String → Option String → Option String → List RawEvent)
    (md : TubeMeta) (tmin tmax : Option String) (s : String)
    (h : Option (Option SeriesDF)) (md1 : TubeMeta) :
    handFetchStep events md tmin tmax s = .ok (h, md1) →
    ((s = "hand" ∨ s = "merge" ∨ s = "combine") →
      strContainsSub (md.timeseries_type.getD "") "hand" = true →
      md1.uuid_hand = none) ∧
    md1.uuid_diver = md.uuid_diver ∧
    md1.timeseries_type = md.timeseries_type := by
  intro hok
  rw [handFetchStep] at hok
  split at hok
  · split at hok
    · cases huuid : md.uuid_hand with
      | some u =>
          rw [huuid] at hok
          simp only [Except.ok.injEq, Prod.mk.injEq] at hok
          rw [← hok.2]
          exact ⟨fun _ _ => rfl, rfl, rfl⟩
      | none =>
          rw [huuid] at hok
          simp at hok
    · rename_i hcont
      simp only [Except.ok.injEq, Prod.mk.injEq] at hok
      rw [← hok.2]
      exact ⟨fun _ hc => absurd hc hcont, rfl, rfl⟩
  · rename_i hcond
    simp only [Except.ok.injEq, Prod.mk.injEq] at hok
    rw [← hok.2]
    refine ⟨fun hs _ => ?_, rfl, rfl⟩
    rcases hs with rfl | rfl | rfl <;> simp at hcond

theorem diverFetchStep_uuid
    (events : String → Option String → Option String → List RawEvent)
    (md : TubeMeta) (tmin tmax : Option String) (s : String)
    (d : Option (Option SeriesDF)) (md2 : TubeMeta) :
    diverFetchStep events md tmin tmax s = .ok (d, md2) →
    ((s = "diver" ∨ s = "merge" ∨ s = "combine") →
      strContainsSub (md.timeseries_type.getD "") "diver" = true →
      md2.uuid_diver = none) ∧
    md2.uuid_hand = md.uuid_hand ∧
    md2.timeseries_type = md.timeseries_type := by
  intro hok
  rw [diverFetchStep] at hok
  split at hok
  · split at hok
    · cases huuid : md.uuid_diver with
      | some u =>
          rw [huuid] at hok
          simp only [Except.ok.injEq, Prod.mk.injEq] at hok
          rw [← hok.2]
          exact ⟨fun _ _ => rfl, rfl, rfl⟩
      | none =>
          rw [huuid] at hok
          simp at hok
    · rename_i hcont
      simp only [Except.ok.injEq, Prod.mk.injEq] at hok
      rw [← hok.2]
      exact ⟨fun _ hc => absurd hc hcont, rfl, rfl⟩
  · rename_i hcond
    simp only [Except.ok.injEq, Prod.mk.injEq] at hok
    rw [← hok.2]
    refine ⟨fun hs _ => ?_, rfl, rfl⟩
    rcases hs with rfl | rfl | rfl <;> simp at hcond

/-- C10: whenever `get_timeseries_tube` returns and its strategy fetched
the hand (resp. diver) side — the strategy is one of hand/merge/combine
(resp. diver/merge/combine) and that side occurs in the tube's
`timeseries_type` — the metadata record it returns has the `uuid_hand`
(resp. `uuid_diver`) key removed; with `only_metadata` set,
`get_lizard_groundwater` skips series retrieval and returns the resolver's
metadata unchanged, uuid keys preserved. -/
theorem claim_C10_uuid_keys_removed :
    (∀ (events : String → Option String → Option String → List RawEvent)
       (md : TubeMeta) (tmin tmax : Option String) (s : String)
       (m : Measurements) (md' : TubeMeta),
      get_timeseries_tube events md tmin tmax s = .ok (m, md') →
      ((s = "hand" ∨ s = "merge" ∨ s = "combine") →
        strContainsSub (md.timeseries_type.getD "") "hand" = true →
        md'.uuid_hand = none) ∧
      ((s = "diver" ∨ s = "merge" ∨ s = "combine") →
        strContainsSub (md.timeseries_type.getD "") "diver" = true →
        md'.uuid_diver = none)) ∧
    (∀ (api : LizardApi) (code : String) (tnr : Option Int)
       (tmin tmax : Option String) (tts : String) (m : Measurements)
       (tmd : TubeMeta),
      get_lizard_groundwater api code tnr tmin tmax tts true = .ok (m, tmd) →
      m = .frame { indexName := none, rows := [] } ∧
      ∃ mw, get_metadata_mw_from_code api code = .ok mw ∧
        get_metadata_tube api.seriesInfo api.transform mw tnr = .ok tmd) := by
  constructor
  · intro events md tmin tmax s m md' hok
    rw [get_timeseries_tube] at hok
    split at hok
    · rename_i htype
      simp only [Except.ok.injEq, Prod.mk.injEq] at hok
      constructor
      · intro _ hcont
        rw [htype] at hcont
        exact absurd hcont (by decide)
      · intro _ hcont
        rw [htype] at hcont
        exact absurd hcont (by decide)
    · split at hok
      · simp at hok
      · rename_i hand_m md1 hh
        split at hok
        · simp at hok
        · rename_i diver_m md2 hd
          have hmd' : md' = md2 := by
            cases hsel : selectMeasurements s hand_m diver_m with
            | error e => rw [hsel] at hok; simp [Except.map] at hok
            | ok mm =>
                rw [hsel] at hok
                simp only [Except.map, Except.ok.injEq,
                  Prod.mk.injEq] at hok
                exact hok.2.symm
          subst hmd'
          have H1 := handFetchStep_uuid events md tmin tmax s hand_m md1 hh
          have H2 := diverFetchStep_uuid events md1 tmin tmax s diver_m
            md' hd
          constructor
          · intro hs hcont
            rw [H2.2.1]
            exact H1.1 hs hcont
          · intro hs hcont
            apply H2.1 hs
            rw [H1.2.2]
            exact hcont
  · intro api code tnr tmin tmax tts m tmd hok
    rw [get_lizard_groundwater] at hok
    cases hmw : get_metadata_mw_from_code api code with
    | error e => rw [hmw] at hok; simp [Except.bind] at hok
    | ok mw =>
        rw [hmw] at hok
        simp only [Except.bind] at hok
        cases hmt : get_metadata_tube api.seriesInfo api.transform mw tnr with
        | error e => rw [hmt] at hok; simp at hok
        | ok tmd0 =>
            rw [hmt] at hok
            simp only [if_pos, Except.ok.injEq, Prod.mk.injEq] at hok
            exact ⟨hok.1.symm, mw, rfl, by rw [hmt, hok.2]⟩

/-- C10 witness: on the two-series tube `mdBothW` the merge strategy
removes both uuid keys from the returned metadata, and the only-metadata
path returns the resolver's metadata for station A unchanged. -/
theorem claim_C10_uuid_keys_removed_witness :
    tubeResultBoth.2.uuid_hand = none ∧ tubeResultBoth.2.uuid_diver = none ∧
    (∃ mw, get_metadata_mw_from_code apiAB "A" = .ok mw ∧
      get_metadata_tube apiAB.seriesInfo apiAB.transform mw (some 1) =
        .ok lizResultA.2) := by
  have hok : get_timeseries_tube fetchBoth mdBothW none none "merge" =
      .ok (tubeResultBoth.1, tubeResultBoth.2) := rfl
  have H := claim_C10_uuid_keys_removed.1 fetchBoth mdBothW none none
    "merge" tubeResultBoth.1 tubeResultBoth.2 hok
  have hok2 : get_lizard_groundwater apiAB "A" (some 1) none none "merge"
      true = .ok (lizResultA.1, lizResultA.2) := rfl
  have H2 := claim_C10_uuid_keys_removed.2 apiAB "A" (some 1) none none
    "merge" lizResultA.1 lizResultA.2 hok2
  exact ⟨H.1 (Or.inr (Or.inl rfl)) rfl, H.2 (Or.inr (Or.inl rfl)) rfl, H2.2⟩

end Lizard
